import Mathlib

/-!
# Verification of the Azure SQL connection layer

Shallow embedding of the connection-resilient database access layer of the
volunteer-registration service: the startup configuration sanity checks, the
credential resolver (`buildConfig` / `getSqlAccessToken`), the retry loop
(`connectWithRetry`), the de-duplicated pool acquisition (`getSqlPool` with its
`_pool` / `_connectingPromise` module state), and the data-access functions
(`insertEmailPass`, `insertNameAndPhone`).

The embedding follows `lib/dbSync.js` (whose second half is the current
`lib/sql.js` module: `buildConfig`, `connectWithRetry`, `getSqlPool`).
JavaScript strings are Lean `String`s; `undefined`-able environment values are
`Option String`; the result of JavaScript `Number(...)` is modelled by
`JsNumber` (finite rational or non-finite); promises that reject are
`Except`-valued results.
-/

namespace DbSync

/-- Is `needle` a prefix of `hay` (character lists)? -/
def charsPrefixOf : List Char → List Char → Bool
  | [], _ => true
  | _ :: _, [] => false
  | a :: as, b :: bs => a = b && charsPrefixOf as bs

/-- Does `hay` contain `needle` as a contiguous substring (character lists)? -/
def charsContains (needle : List Char) : List Char → Bool
  | [] => needle.isEmpty
  | b :: bs => charsPrefixOf needle (b :: bs) || charsContains needle bs

/-- JavaScript `hay.includes(needle)` on strings. -/
def strIncludes (hay needle : String) : Bool :=
  charsContains needle.data hay.data

/-- Does `hay` end with `needle`?  Used only to compare the startup check
against a genuine suffix test. -/
def strEndsWith (hay needle : String) : Bool :=
  charsPrefixOf needle.data.reverse hay.data.reverse

/-- The result of JavaScript `Number(...)`: either a finite value or a
non-finite one (`NaN`, `±Infinity`), which is all `Number.isFinite` observes. -/
inductive JsNumber where
  | nonFinite
  | finite (q : ℚ)
  deriving DecidableEq

/-- Startup configuration errors (`throw new Error(...)` at module load). -/
inductive ConfigError where
  | invalidServer
  | invalidDatabase
  | invalidPort
  deriving DecidableEq

/-- The server check of the startup sanity block:
`!SQL_SERVER || typeof SQL_SERVER !== 'string' || !SQL_SERVER.includes('.database.windows.net')`.
`none` models an unset environment variable; an empty string is falsy. -/
def serverCheckPasses (server : Option String) : Bool :=
  match server with
  | none => false
  | some s => !s.isEmpty && strIncludes s ".database.windows.net"

/-- The database check: `!SQL_DATABASE || typeof SQL_DATABASE !== 'string'`. -/
def databaseCheckPasses (database : Option String) : Bool :=
  match database with
  | none => false
  | some d => !d.isEmpty

/-- The port check: `!Number.isFinite(SQL_PORT) || SQL_PORT <= 0` fails. -/
def portCheckPasses (port : JsNumber) : Bool :=
  match port with
  | .nonFinite => false
  | .finite q => decide (0 < q)

/-- The startup sanity block of `lib/dbSync.js` (identical in `lib/sql.js`):
three sequential checks, each throwing on failure, run at module load. -/
def checkStartupConfig (server database : Option String) (port : JsNumber) :
    Except ConfigError Unit :=
  if !serverCheckPasses server then .error .invalidServer
  else if !databaseCheckPasses database then .error .invalidDatabase
  else if !portCheckPasses port then .error .invalidPort
  else .ok ()

/-- Modelled from the spec's words (for comparison with `checkStartupConfig`):
"server FQDN must match the expected domain pattern; database name non-empty;
port > 0" — all three conditions hold, as one conjunction. -/
def specStartupValid (server database : Option String) (port : JsNumber) : Bool :=
  serverCheckPasses server && databaseCheckPasses database && portCheckPasses port

/-- A connection failure as observed by the retry loop: the fields that
`connectWithRetry`'s catch block reads (`err?.code`,
`err?.originalError?.code`, `err?.message`). -/
structure SqlError where
  code : Option String
  originalCode : Option String
  message : String
  deriving DecidableEq

/-- The transient code set:
`const TRANSIENT_CODES = new Set(['ESOCKET', 'ECONNRESET', 'ETIMEDOUT', 'ETIME'])`. -/
def TRANSIENT_CODES : List String := ["ESOCKET", "ECONNRESET", "ETIMEDOUT", "ETIME"]

/-- The effective code `err?.code || err?.originalError?.code`: the JavaScript `||` falls through
to the nested code when `err.code` is absent or the empty string. -/
def effectiveCode (e : SqlError) : Option String :=
  match e.code with
  | some c => if c.isEmpty then e.originalCode else some c
  | none => e.originalCode

/-- The regex test `/socket hang up/i.test(message)`: case-insensitive substring match,
realized by lowercasing the message's characters and searching for the
(already lowercase) pattern. -/
def socketHangUpMatch (message : String) : Bool :=
  charsContains "socket hang up".data (message.data.map Char.toLower)

/-- The classification `TRANSIENT_CODES.has(code) || /socket hang up/i.test(message)`; a `Set`
lookup of JavaScript `undefined` is `false`. -/
def isTransient (e : SqlError) : Bool :=
  (match effectiveCode e with
   | some c => TRANSIENT_CODES.contains c
   | none => false) || socketHangUpMatch e.message

/-- A connected pool handle (`sql.ConnectionPool` after `connect()`), with an
identity so distinct handles are distinguishable and the driver-reported
`connected` health flag. -/
structure Pool where
  id : Nat
  connected : Bool
  deriving DecidableEq

/-- The environment signals the credential resolver reads:
`IS_APP_SERVICE = !!process.env.WEBSITE_SITE_NAME`,
`USER_ASSIGNED_CLIENT_ID = process.env.AZURE_CLIENT_ID`, and
`SQL_FORCE_ACCESS_TOKEN = process.env.SQL_FORCE_ACCESS_TOKEN === '1'`. -/
structure Env where
  isAppService : Bool
  azureClientId : Option String
  forceAccessToken : Bool
  deriving DecidableEq

/-- The authentication descriptor `buildConfig` places in the driver config:
one of the three `authentication.type` values it can emit. -/
inductive Authentication where
  | msiAppService (clientId : Option String)
  | tokenCredential
  | accessToken (token : String)
  deriving DecidableEq

/-- The failure of `getSqlAccessToken`:
`throw new Error('No access token returned for ...')`. -/
inductive TokenError where
  | noToken
  deriving DecidableEq

/-- JavaScript truthiness of an optional string: `undefined` and `''` are
falsy. -/
def truthy (s : Option String) : Bool :=
  match s with
  | none => false
  | some c => !c.isEmpty

/-- The token fetch `getSqlAccessToken`: `const tok = await credential.getToken(...)`,
`const token = tok?.token`, `if (!token) throw ...`.  The provider's answer is
the `providerToken` argument (`none` models a missing token field; the empty
string is falsy and also rejected). -/
def getSqlAccessToken (providerToken : Option String) : Except TokenError String :=
  match providerToken with
  | none => .error .noToken
  | some t => if t.isEmpty then .error .noToken else .ok t

/-- The authentication branch of `buildConfig` in `lib/dbSync.js`:
App Service MSI first (with `clientId` only when `USER_ASSIGNED_CLIENT_ID` is
truthy), then driver-managed token credential unless the forced-token override
is set, else an explicitly fetched access token. -/
def resolveAuthentication (env : Env) (providerToken : Option String) :
    Except TokenError Authentication :=
  if env.isAppService then
    .ok (.msiAppService (if truthy env.azureClientId then env.azureClientId else none))
  else if !env.forceAccessToken then
    .ok .tokenCredential
  else
    (getSqlAccessToken providerToken).map .accessToken

/-- The static connection coordinates (`SQL_SERVER`, `SQL_DATABASE`,
`SQL_PORT`) read once at module load. -/
structure StaticConfig where
  server : String
  database : String
  port : JsNumber
  deriving DecidableEq

/-- The full driver configuration object `buildConfig` returns. -/
structure SqlConfig where
  server : String
  database : String
  port : JsNumber
  encrypt : Bool
  trustServerCertificate : Bool
  connectTimeout : Nat
  requestTimeout : Nat
  poolMax : Nat
  poolMin : Nat
  idleTimeoutMillis : Nat
  acquireTimeoutMillis : Nat
  authentication : Authentication
  deriving DecidableEq

/-- The config builder `buildConfig`: resolve the authentication descriptor (fetching a token in
the forced-token branch), then assemble the config literal with its fixed
options and pool bounds. -/
def buildConfig (sc : StaticConfig) (env : Env) (providerToken : Option String) :
    Except TokenError SqlConfig :=
  (resolveAuthentication env providerToken).map fun auth =>
    { server := sc.server, database := sc.database, port := sc.port,
      encrypt := true, trustServerCertificate := false,
      connectTimeout := 30000, requestTimeout := 30000,
      poolMax := 10, poolMin := 0,
      idleTimeoutMillis := 30000, acquireTimeoutMillis := 30000,
      authentication := auth }

/-- The spec's Authentication Descriptor variants (§3 of the spec), for
comparison with the code's `Authentication`. -/
inductive SpecAuthDescriptor where
  | managedIdentity (clientId : Option String)
  | tokenCredential
  | explicitAccessToken (token : String)
  deriving DecidableEq

/-- Modelled from the spec's words (Credential Resolver policy, §4.1): hosted
platform gives ManagedIdentity with the provided client id; otherwise
TokenCredential unless the forced-token override is set; otherwise an
ExplicitAccessToken fetched from the provider, failing with
TokenAcquisitionError when the provider returns no (usable) token. -/
def specResolveCredential (hosted : Bool) (clientId : Option String)
    (forceToken : Bool) (providerToken : Option String) :
    Except TokenError SpecAuthDescriptor :=
  if hosted then .ok (.managedIdentity clientId)
  else if !forceToken then .ok .tokenCredential
  else
    match providerToken with
    | none => .error .noToken
    | some t => if t.isEmpty then .error .noToken else .ok (.explicitAccessToken t)

/-- The correspondence between the code's authentication descriptors and the
spec's. -/
def authToSpec : Authentication → SpecAuthDescriptor
  | .msiAppService cid => .managedIdentity cid
  | .tokenCredential => .tokenCredential
  | .accessToken t => .explicitAccessToken t

/-- The backoff `const delay = Math.min(5000 * attempt, 15000)`. -/
def backoffDelay (attempt : Nat) : Nat := min (5000 * attempt) 15000

/-- The observable trace of one `connectWithRetry` run: the attempt numbers at
which a connection was tried (a fresh `buildConfig` precedes each), the
backoff delays slept, and the final outcome (`.error lastErr` models
`throw lastErr`, where `lastErr` may still be `null` when the attempt budget
was zero). -/
structure RetryTrace where
  attempts : List Nat
  backoffs : List Nat
  result : Except (Option SqlError) Pool

/-- The `while (attempt < maxAttempts)` loop of `connectWithRetry`, with the
remaining budget as fuel.  `tryConnect a` is the body's
`buildConfig` + `pool.connect()` at attempt number `a`.  A success returns the
pool; a transient failure sleeps `backoffDelay a` and loops; a non-transient
failure breaks out and throws; an exhausted budget throws the last error. -/
def connectRetryGo (tryConnect : Nat → Except SqlError Pool) :
    Nat → Nat → Option SqlError → RetryTrace
  | 0, _, lastErr => { attempts := [], backoffs := [], result := .error lastErr }
  | fuel + 1, attempt, _ =>
    let a := attempt + 1
    match tryConnect a with
    | .ok pool => { attempts := [a], backoffs := [], result := .ok pool }
    | .error err =>
      if isTransient err then
        let rest := connectRetryGo tryConnect fuel a (some err)
        { attempts := a :: rest.attempts,
          backoffs := backoffDelay a :: rest.backoffs,
          result := rest.result }
      else { attempts := [a], backoffs := [], result := .error (some err) }

/-- The entry point `connectWithRetry(maxAttempts = 4)`: start at `attempt = 0`,
`lastErr = null`. -/
def connectWithRetry (tryConnect : Nat → Except SqlError Pool)
    (maxAttempts : Nat := 4) : RetryTrace :=
  connectRetryGo tryConnect maxAttempts 0 none

/-- Did this connection attempt fail with a transient error? -/
def errTransient (r : Except SqlError Pool) : Bool :=
  match r with
  | .error e => isTransient e
  | .ok _ => false

/-- The error of a failed attempt, if it failed. -/
def errorOf (r : Except SqlError Pool) : Option SqlError :=
  match r with
  | .error e => some e
  | .ok _ => none

/-- The `SqlError` a thrown token-acquisition failure presents to the catch
block of `connectWithRetry`: a plain `Error` with no `code` property and the
fixed message. -/
def tokenErrorToSqlError : TokenError → SqlError
  | .noToken =>
    { code := none, originalCode := none,
      message := "No access token returned for https://database.windows.net/.default" }

/-- The loop body of `connectWithRetry` in `lib/dbSync.js`, instantiated with
its real first half: `const config = await buildConfig()` — rebuilding the
configuration from scratch and re-resolving credentials with the token the
provider serves at attempt `a` — then the physical `pool.connect()`, whose
network outcome is the oracle `net`. -/
def attemptOnce (sc : StaticConfig) (env : Env) (tokenAt : Nat → Option String)
    (net : Nat → SqlConfig → Except SqlError Pool) (a : Nat) :
    Except SqlError Pool :=
  match buildConfig sc env (tokenAt a) with
  | .error te => .error (tokenErrorToSqlError te)
  | .ok cfg => net a cfg

/-- The module-level mutable state of the pool manager:
`let _pool = null; let _connectingPromise = null;`, with in-flight attempts
identified by a freshness counter so distinct attempts are distinguishable. -/
structure PoolState where
  pool : Option Pool
  connecting : Option Nat
  nextAttemptId : Nat
  deriving DecidableEq

/-- What one `getSqlPool()` call returns before any awaiting: the already
connected pool (fast path), a join onto the in-flight attempt's promise, or
the start of a brand-new `connectWithRetry` attempt. -/
inductive AcquireOutcome where
  | existingPool (p : Pool)
  | awaitAttempt (aid : Nat)
  | startAttempt (aid : Nat)
  deriving DecidableEq

/-- The second half of `getSqlPool`: `if (_connectingPromise) return it;`
else assign a fresh attempt to `_connectingPromise` and return it. -/
def joinOrStartAttempt (s : PoolState) : AcquireOutcome × PoolState :=
  match s.connecting with
  | some aid => (.awaitAttempt aid, s)
  | none =>
    (.startAttempt s.nextAttemptId,
     { s with connecting := some s.nextAttemptId,
              nextAttemptId := s.nextAttemptId + 1 })

/-- The synchronous prefix of `getSqlPool()` in `lib/dbSync.js`:
`if (_pool && _pool.connected) return _pool;` then the connecting-promise
check/assignment.  On the single-threaded event loop this prefix runs
atomically — the first suspension point is inside `connectWithRetry` — so a
batch of K concurrent calls is K sequential executions of this step. -/
def getSqlPool (s : PoolState) : AcquireOutcome × PoolState :=
  match s.pool with
  | some p => if p.connected then (.existingPool p, s) else joinOrStartAttempt s
  | none => joinOrStartAttempt s

/-- The `.then` handler of the attempt promise:
`_pool = pool; _connectingPromise = null;`. -/
def settleSuccess (s : PoolState) (p : Pool) : PoolState :=
  { s with pool := some p, connecting := none }

/-- The `.catch` handler of the attempt promise: `_connectingPromise = null`
(the error is rethrown to every awaiting caller). -/
def settleFailure (s : PoolState) : PoolState :=
  { s with connecting := none }

/-- K concurrent `getSqlPool()` calls: their synchronous prefixes run one
after another on the event loop, threading the module state. -/
def runAcquireBatch : Nat → PoolState → List AcquireOutcome × PoolState
  | 0, s => ([], s)
  | k + 1, s =>
    let (r, s1) := getSqlPool s
    let (rs, s2) := runAcquireBatch k s1
    (r :: rs, s2)

/-- Which in-flight attempt a call's result is tied to, if any. -/
def attemptRef : AcquireOutcome → Option Nat
  | .existingPool _ => none
  | .awaitAttempt aid => some aid
  | .startAttempt aid => some aid

/-- Does this call start a new physical connection attempt? -/
def isStart : AcquireOutcome → Bool
  | .startAttempt _ => true
  | _ => false

/-- What a caller ultimately receives once the attempt it is tied to settles
with `attemptResult` (callers on the fast path already hold their pool). -/
def resolveAcquire (attemptResult : Except SqlError Pool) :
    AcquireOutcome → Except SqlError Pool
  | .existingPool p => .ok p
  | .awaitAttempt _ => attemptResult
  | .startAttempt _ => attemptResult

/-- Is the stored pool healthy (`_pool && _pool.connected`)? -/
def poolHealthy : Option Pool → Bool
  | some p => p.connected
  | none => false

/-- The record `hashPassword` returns. -/
structure HashedPassword where
  hash : String
  salt : String
  iterations : Nat
  algorithm : String
  deriving DecidableEq

/-- The function `hashPassword` from `lib/dbSync.js`, with the nondeterministic crypto
primitives passed in as oracles: `randomSalt` is `crypto.randomBytes(16)`
base64-encoded, `pbkdf2` is `crypto.pbkdf2Sync(password, salt, iterations, 32,
'sha256')` base64-encoded. -/
def hashPassword (password : String) (randomSalt : String)
    (pbkdf2 : String → String → Nat → String) : HashedPassword :=
  { hash := pbkdf2 password randomSalt 310000,
    salt := randomSalt,
    iterations := 310000,
    algorithm := "pbkdf2-sha256" }

/-- A row of `dbo.volunteer_in` with the columns the data-access functions
touch; the profile columns are nullable. -/
structure VolunteerRow where
  id : Nat
  email : String
  passwordHash : String
  passwordSalt : String
  passwordAlgo : String
  passwordIter : Nat
  firstName : Option String
  lastName : Option String
  phone : Option String
  suffix : Option String
  smsCapable : Option Bool
  deriving DecidableEq

/-- The `dbo.volunteer_in` table, with the identity column's next value. -/
structure VolunteerTable where
  rows : List VolunteerRow
  nextId : Nat
  deriving DecidableEq

/-- The `OUTPUT inserted.id, inserted.email` row of the conditional insert. -/
structure InsertedIdEmail where
  id : Nat
  email : String
  deriving DecidableEq

/-- The statement of `insertEmailPass`:
`IF NOT EXISTS (SELECT 1 FROM volunteer_in WHERE email = @email) BEGIN INSERT
... OUTPUT inserted.id, inserted.email VALUES ... END;` followed by
`result.recordset?.[0] ?? null`.  A conflicting row yields an empty recordset,
hence `none` — there is no thrown-exception path for the conflict. -/
def insertEmailPass (db : VolunteerTable) (email : String) (hp : HashedPassword) :
    VolunteerTable × Option InsertedIdEmail :=
  if db.rows.any (fun r => r.email == email) then (db, none)
  else
    let row : VolunteerRow :=
      { id := db.nextId, email := email,
        passwordHash := hp.hash, passwordSalt := hp.salt,
        passwordAlgo := hp.algorithm, passwordIter := hp.iterations,
        firstName := none, lastName := none, phone := none, suffix := none,
        smsCapable := none }
    ({ rows := db.rows ++ [row], nextId := db.nextId + 1 },
     some { id := row.id, email := row.email })

/-- The statement of `insertNameAndPhone`:
`UPDATE dbo.volunteer_in SET firstName = @firstName, lastName = @lastName,
phone = @phone, suffix = @suffix OUTPUT inserted.* WHERE id = @id;` followed
by `result.recordset?.[0] ?? null`.  The `smsCapable` argument mirrors the
bound-but-unreferenced `@SMSCapable` parameter
(`req.input('SMSCapable', sql.Bit, SMSCapable)`): the statement text never
mentions it. -/
def insertNameAndPhone (db : VolunteerTable) (id : Nat)
    (firstName lastName phone suffix : String) (smsCapable : Bool) :
    VolunteerTable × Option VolunteerRow :=
  let updatedRows := db.rows.map fun r =>
    if r.id == id then
      { r with firstName := some firstName, lastName := some lastName,
               phone := some phone, suffix := some suffix }
    else r
  ({ db with rows := updatedRows },
   (updatedRows.filter (fun r => r.id == id)).head?)

/-- Fixture: a connector that fails every attempt with a transient socket
error. -/
def alwaysHangUpConn : Nat → Except SqlError Pool :=
  fun _ => .error { code := some "ESOCKET", originalCode := none, message := "socket hang up" }

/-- Fixture: a connector that fails every attempt with a non-transient login
rejection. -/
def loginFailConn : Nat → Except SqlError Pool :=
  fun _ => .error { code := some "ELOGIN", originalCode := none, message := "Login failed for user" }

/-- Fixture: static connection coordinates. -/
def sampleStatic : StaticConfig :=
  { server := "albanyregional.database.windows.net", database := "volunteers",
    port := .finite 1433 }

/-- Fixture: a local environment with the forced-token override set. -/
def localForceEnv : Env :=
  { isAppService := false, azureClientId := none, forceAccessToken := true }

/-- Fixture: a token provider that always serves the same token. -/
def constTok : Nat → Option String := fun _ => some "tok"

/-- Fixture: a network that times out on every connection attempt. -/
def hangUpNet : Nat → SqlConfig → Except SqlError Pool :=
  fun _ _ => .error { code := some "ETIMEDOUT", originalCode := none, message := "timeout" }

/-- Fixture: a hashed password built with constant oracles. -/
def sampleHash : HashedPassword := hashPassword "pw" "salt" (fun _ _ _ => "digest")

/-- Claim C8: at startup, a missing or pattern-violating server, a
missing/empty database name, or a non-positive or non-finite port makes the
module throw a configuration error, and when all three checks pass no such
error is raised. -/
theorem startup_config_ok_iff (server database : Option String) (port : JsNumber) :
    checkStartupConfig server database port = .ok () ↔
      specStartupValid server database port = true := by
  unfold checkStartupConfig specStartupValid
  cases serverCheckPasses server <;> cases databaseCheckPasses database <;>
    cases portCheckPasses port <;> simp

/-- Claim C10: the startup server-name validation is a substring check, not a
suffix check: this server string passes the check although
`.database.windows.net` is not its domain suffix — the pattern merely occurs
in the middle of the name. -/
theorem server_check_substring_not_suffix :
    serverCheckPasses (some "volunteer.database.windows.net.attacker.example") = true ∧
    strEndsWith "volunteer.database.windows.net.attacker.example" ".database.windows.net" = false ∧
    strIncludes "volunteer.database.windows.net.attacker.example" ".database.windows.net" = true := by
  refine ⟨?_, ?_, ?_⟩ <;> decide

lemma map_smsCapable_update (rows : List VolunteerRow) (id : Nat)
    (firstName lastName phone suffix : String) :
    (rows.map fun r =>
        if r.id == id then
          { r with firstName := some firstName, lastName := some lastName,
                   phone := some phone, suffix := some suffix }
        else r).map (fun r => r.smsCapable) =
      rows.map (fun r => r.smsCapable) := by
  induction rows with
  | nil => rfl
  | cons r rs ih =>
    simp only [List.map_cons, ih, List.cons.injEq, and_true]
    by_cases h : r.id == id <;> simp [h]

/-- Claim C9: `insertNameAndPhone` leaves the SMSCapable column unchanged for
every input — its result does not depend on the accepted-and-bound SMSCapable
argument, and every row's SMSCapable value survives the update. -/
theorem insertNameAndPhone_frames_smsCapable (db : VolunteerTable) (id : Nat)
    (firstName lastName phone suffix : String) (b1 b2 : Bool) :
    insertNameAndPhone db id firstName lastName phone suffix b1 =
      insertNameAndPhone db id firstName lastName phone suffix b2 ∧
    (insertNameAndPhone db id firstName lastName phone suffix b1).1.rows.map
        (fun r => r.smsCapable) =
      db.rows.map (fun r => r.smsCapable) := by
  refine ⟨rfl, ?_⟩
  exact map_smsCapable_update db.rows id firstName lastName phone suffix

/-- Claim C4: the credential resolver is a function of the environment
signals: hosted platform gives a ManagedIdentity descriptor carrying the
client id exactly when one is provided; otherwise TokenCredential unless the
forced-token override is set; otherwise an explicitly fetched access token,
failing with the token-acquisition error when the provider returns no token. -/
theorem resolveAuthentication_matches_spec (env : Env) (providerToken : Option String) :
    (resolveAuthentication env providerToken).map authToSpec =
      specResolveCredential env.isAppService
        (if truthy env.azureClientId then env.azureClientId else none)
        env.forceAccessToken providerToken := by
  unfold resolveAuthentication specResolveCredential getSqlAccessToken
  cases env.isAppService <;> cases env.forceAccessToken <;>
    cases providerToken <;> simp [authToSpec, Except.map]
  · rename_i t
    by_cases h : t.isEmpty <;> simp [h, authToSpec]

/-- Claim C6: once a pool is connected and reports healthy, every acquisition
call returns that same pool handle with the state untouched, and a new
connection attempt starts only when the stored pool reports unhealthy and no
attempt is already in flight. -/
theorem pool_reuse_until_unhealthy (s : PoolState) :
    (∀ p, s.pool = some p → p.connected = true → getSqlPool s = (.existingPool p, s)) ∧
    (isStart (getSqlPool s).1 = true → poolHealthy s.pool = false ∧ s.connecting = none) := by
  constructor
  · intro p hp hc
    simp [getSqlPool, hp, hc]
  · intro h
    cases hp : s.pool with
    | none =>
      cases hc : s.connecting with
      | none => exact ⟨by simp [poolHealthy, hp], rfl⟩
      | some aid =>
        simp [getSqlPool, joinOrStartAttempt, hp, hc, isStart] at h
    | some p =>
      cases hconn : p.connected with
      | true => simp [getSqlPool, hp, hconn, isStart] at h
      | false =>
        cases hc : s.connecting with
        | none => exact ⟨by simp [poolHealthy, hp, hconn], rfl⟩
        | some aid =>
          simp [getSqlPool, joinOrStartAttempt, hp, hconn, hc, isStart] at h

/-- Witness for C6 at a concrete connected pool. -/
theorem pool_reuse_until_unhealthy_witness :
    getSqlPool { pool := some { id := 7, connected := true }, connecting := none,
                 nextAttemptId := 5 } =
      (.existingPool { id := 7, connected := true },
       { pool := some { id := 7, connected := true }, connecting := none,
         nextAttemptId := 5 }) :=
  (pool_reuse_until_unhealthy _).1 { id := 7, connected := true } rfl rfl

lemma runAcquireBatch_await (a : Nat) :
    ∀ (k : Nat) (s : PoolState), s.pool = none → s.connecting = some a →
      runAcquireBatch k s = (List.replicate k (.awaitAttempt a), s) := by
  intro k
  induction k with
  | zero => intro s _ _; rfl
  | succ k ih =>
    intro s hp hc
    have hstep : getSqlPool s = (.awaitAttempt a, s) := by
      simp [getSqlPool, joinOrStartAttempt, hp, hc]
    simp [runAcquireBatch, hstep, ih s hp hc, List.replicate_succ]

/-- Claim C1: K ≥ 1 concurrent `getSqlPool` calls while no pool exists and no
attempt is in flight start exactly one physical connection attempt; every call
is tied to that single attempt, so all K calls resolve to its outcome —
success or failure — and at most one in-flight attempt exists throughout. -/
theorem single_flight_acquisition (K : Nat) (s0 : PoolState)
    (hK : 1 ≤ K) (hpool : s0.pool = none) (hconn : s0.connecting = none) :
    (runAcquireBatch K s0).1.countP isStart = 1 ∧
    (∀ r ∈ (runAcquireBatch K s0).1, attemptRef r = some s0.nextAttemptId) ∧
    (∀ out : Except SqlError Pool, ∀ r ∈ (runAcquireBatch K s0).1,
      resolveAcquire out r = out) := by
  obtain ⟨K', rfl⟩ : ∃ K', K = K' + 1 := ⟨K - 1, by omega⟩
  have hstep : getSqlPool s0 =
      (.startAttempt s0.nextAttemptId,
       { s0 with connecting := some s0.nextAttemptId,
                 nextAttemptId := s0.nextAttemptId + 1 }) := by
    simp [getSqlPool, joinOrStartAttempt, hpool, hconn]
  have hrest := runAcquireBatch_await s0.nextAttemptId K'
    { s0 with connecting := some s0.nextAttemptId,
              nextAttemptId := s0.nextAttemptId + 1 } hpool rfl
  have hrun : (runAcquireBatch (K' + 1) s0).1 =
      .startAttempt s0.nextAttemptId ::
        List.replicate K' (.awaitAttempt s0.nextAttemptId) := by
    simp [runAcquireBatch, hstep, hrest]
  rw [hrun]
  refine ⟨?_, ?_, ?_⟩
  · rw [List.countP_cons]
    have : (List.replicate K' (AcquireOutcome.awaitAttempt s0.nextAttemptId)).countP
        isStart = 0 := by
      rw [List.countP_eq_zero]
      intro r hr
      rw [List.eq_of_mem_replicate hr]
      simp [isStart]
    simp [this, isStart]
  · intro r hr
    rcases List.mem_cons.mp hr with rfl | hr'
    · rfl
    · rw [List.eq_of_mem_replicate hr']; rfl
  · intro out r hr
    rcases List.mem_cons.mp hr with rfl | hr'
    · rfl
    · rw [List.eq_of_mem_replicate hr']; rfl

/-- Witness for C1: two concurrent calls on the empty initial state. -/
theorem single_flight_acquisition_witness :
    1 ≤ 2 ∧
    ((runAcquireBatch 2 { pool := none, connecting := none, nextAttemptId := 0 }).1.countP
        isStart = 1 ∧
     (∀ r ∈ (runAcquireBatch 2
          { pool := none, connecting := none, nextAttemptId := 0 }).1,
        attemptRef r = some 0) ∧
     (∀ out : Except SqlError Pool,
        ∀ r ∈ (runAcquireBatch 2
            { pool := none, connecting := none, nextAttemptId := 0 }).1,
          resolveAcquire out r = out)) :=
  ⟨by decide,
   single_flight_acquisition 2 { pool := none, connecting := none, nextAttemptId := 0 }
     (by decide) rfl rfl⟩

lemma connectRetryGo_all_transient (tryConnect : Nat → Except SqlError Pool) :
    ∀ (fuel attempt : Nat) (lastErr : Option SqlError), 1 ≤ fuel →
      (∀ i, i < fuel → errTransient (tryConnect (attempt + 1 + i)) = true) →
      connectRetryGo tryConnect fuel attempt lastErr =
        { attempts := List.range' (attempt + 1) fuel,
          backoffs := (List.range' (attempt + 1) fuel).map backoffDelay,
          result := .error (errorOf (tryConnect (attempt + fuel))) } := by
  intro fuel
  induction fuel with
  | zero => intro attempt lastErr h; omega
  | succ f ih =>
    intro attempt lastErr _ htr
    have h0 : errTransient (tryConnect (attempt + 1)) = true := by
      have := htr 0 (by omega)
      simpa using this
    cases hE : tryConnect (attempt + 1) with
    | ok p => rw [hE] at h0; simp [errTransient] at h0
    | error e =>
      rw [hE] at h0
      have htrans : isTransient e = true := by simpa [errTransient] using h0
      show (match tryConnect (attempt + 1) with
        | .ok pool => { attempts := [attempt + 1], backoffs := [], result := .ok pool }
        | .error err =>
          if isTransient err then
            let rest := connectRetryGo tryConnect f (attempt + 1) (some err)
            { attempts := (attempt + 1) :: rest.attempts,
              backoffs := backoffDelay (attempt + 1) :: rest.backoffs,
              result := rest.result }
          else { attempts := [attempt + 1], backoffs := [],
                 result := .error (some err) } : RetryTrace) = _
      rw [hE]
      simp only [htrans, if_true]
      rcases Nat.eq_zero_or_pos f with rfl | hf
      · simp [connectRetryGo, List.range'_one, hE, errorOf]
      · have htr' : ∀ i, i < f → errTransient (tryConnect (attempt + 1 + 1 + i)) = true := by
          intro i hi
          have := htr (i + 1) (by omega)
          have harith : attempt + 1 + (i + 1) = attempt + 1 + 1 + i := by omega
          rwa [harith] at this
        rw [ih (attempt + 1) (some e) hf htr']
        have harith2 : attempt + 1 + f = attempt + (f + 1) := by omega
        rw [List.range'_succ, harith2]
        simp

/-- Claim C2: a connector that fails with a transient error on every call
makes `connectWithRetry` perform exactly `N` connection attempts — `N` being
the configurable attempt budget, whose source default is 4 — and then throw
the error of the last attempt. -/
theorem connect_retry_exact_attempts (tryConnect : Nat → Except SqlError Pool)
    (N : Nat) (hN : 1 ≤ N)
    (htr : ∀ a, 1 ≤ a → a ≤ N → errTransient (tryConnect a) = true) :
    (connectWithRetry tryConnect N).attempts.length = N ∧
    (connectWithRetry tryConnect N).attempts = List.range' 1 N ∧
    (connectWithRetry tryConnect N).result = .error (errorOf (tryConnect N)) := by
  have htr' : ∀ i, i < N → errTransient (tryConnect (0 + 1 + i)) = true := by
    intro i hi
    have := htr (i + 1) (by omega) (by omega)
    simpa [Nat.add_comm] using this
  have h := connectRetryGo_all_transient tryConnect N 0 none hN htr'
  unfold connectWithRetry
  rw [h]
  simp

/-- Witness for C2: the always-hanging-up connector with the source's default
budget of 4 attempts. -/
theorem connect_retry_exact_attempts_witness :
    (connectWithRetry alwaysHangUpConn).attempts.length = 4 ∧
    (connectWithRetry alwaysHangUpConn).attempts = List.range' 1 4 ∧
    (connectWithRetry alwaysHangUpConn).result = .error (errorOf (alwaysHangUpConn 4)) :=
  connect_retry_exact_attempts alwaysHangUpConn 4 (by decide) (fun _ _ _ => rfl)

lemma connectRetryGo_nontransient (tryConnect : Nat → Except SqlError Pool) :
    ∀ (pre fuel attempt : Nat) (lastErr : Option SqlError) (e : SqlError),
      (∀ i, i < pre → errTransient (tryConnect (attempt + 1 + i)) = true) →
      tryConnect (attempt + 1 + pre) = .error e →
      isTransient e = false →
      pre + 1 ≤ fuel →
      connectRetryGo tryConnect fuel attempt lastErr =
        { attempts := List.range' (attempt + 1) (pre + 1),
          backoffs := (List.range' (attempt + 1) pre).map backoffDelay,
          result := .error (some e) } := by
  intro pre
  induction pre with
  | zero =>
    intro fuel attempt lastErr e _ hfail hnt hfuel
    obtain ⟨f, rfl⟩ : ∃ f, fuel = f + 1 := ⟨fuel - 1, by omega⟩
    have hfail' : tryConnect (attempt + 1) = .error e := by simpa using hfail
    show (match tryConnect (attempt + 1) with
      | .ok pool => { attempts := [attempt + 1], backoffs := [], result := .ok pool }
      | .error err =>
        if isTransient err then
          let rest := connectRetryGo tryConnect f (attempt + 1) (some err)
          { attempts := (attempt + 1) :: rest.attempts,
            backoffs := backoffDelay (attempt + 1) :: rest.backoffs,
            result := rest.result }
        else { attempts := [attempt + 1], backoffs := [],
               result := .error (some err) } : RetryTrace) = _
    rw [hfail']
    simp [hnt, List.range'_one]
  | succ pre ih =>
    intro fuel attempt lastErr e htr hfail hnt hfuel
    obtain ⟨f, rfl⟩ : ∃ f, fuel = f + 1 := ⟨fuel - 1, by omega⟩
    have h0 : errTransient (tryConnect (attempt + 1)) = true := by
      have := htr 0 (by omega)
      simpa using this
    cases hE : tryConnect (attempt + 1) with
    | ok p => rw [hE] at h0; simp [errTransient] at h0
    | error e0 =>
      rw [hE] at h0
      have htrans : isTransient e0 = true := by simpa [errTransient] using h0
      show (match tryConnect (attempt + 1) with
        | .ok pool => { attempts := [attempt + 1], backoffs := [], result := .ok pool }
        | .error err =>
          if isTransient err then
            let rest := connectRetryGo tryConnect f (attempt + 1) (some err)
            { attempts := (attempt + 1) :: rest.attempts,
              backoffs := backoffDelay (attempt + 1) :: rest.backoffs,
              result := rest.result }
          else { attempts := [attempt + 1], backoffs := [],
                 result := .error (some err) } : RetryTrace) = _
      rw [hE]
      simp only [htrans, if_true]
      have htr' : ∀ i, i < pre → errTransient (tryConnect (attempt + 1 + 1 + i)) = true := by
        intro i hi
        have := htr (i + 1) (by omega)
        have harith : attempt + 1 + (i + 1) = attempt + 1 + 1 + i := by omega
        rwa [harith] at this
      have hfail' : tryConnect (attempt + 1 + 1 + pre) = .error e := by
        have harith : attempt + 1 + (pre + 1) = attempt + 1 + 1 + pre := by omega
        rwa [harith] at hfail
      rw [ih f (attempt + 1) (some e0) e htr' hfail' hnt (by omega)]
      rw [List.range'_succ (attempt + 1) (pre + 1), List.range'_succ (attempt + 1) pre]
      simp

/-- Claim C3: when attempt `k` fails with a non-transient error — its
effective code outside the transient set and its message not matching the
socket-hang-up pattern — the acquisition fails immediately with that error:
the trace shows `k` attempts (none after the failure), only the `k - 1`
backoffs of the earlier transient failures, and the remaining budget
`maxAttempts - k` is never consumed. -/
theorem nontransient_short_circuit (tryConnect : Nat → Except SqlError Pool)
    (maxAttempts k : Nat) (e : SqlError)
    (hk1 : 1 ≤ k) (hk2 : k ≤ maxAttempts)
    (hpre : ∀ a, 1 ≤ a → a < k → errTransient (tryConnect a) = true)
    (hfail : tryConnect k = .error e) (hnt : isTransient e = false) :
    connectWithRetry tryConnect maxAttempts =
      { attempts := List.range' 1 k,
        backoffs := (List.range' 1 (k - 1)).map backoffDelay,
        result := .error (some e) } ∧
    (connectWithRetry tryConnect maxAttempts).attempts.length = k := by
  have hpre' : ∀ i, i < k - 1 → errTransient (tryConnect (0 + 1 + i)) = true := by
    intro i hi
    have := hpre (i + 1) (by omega) (by omega)
    simpa [Nat.add_comm] using this
  have hfail' : tryConnect (0 + 1 + (k - 1)) = .error e := by
    have harith : 0 + 1 + (k - 1) = k := by omega
    rwa [harith]
  have h := connectRetryGo_nontransient tryConnect (k - 1) maxAttempts 0 none e
    hpre' hfail' hnt (by omega)
  have hk : k - 1 + 1 = k := by omega
  constructor
  · unfold connectWithRetry
    rw [h, hk]
  · unfold connectWithRetry
    rw [h, hk]
    simp

/-- Witness for C3: a first-attempt login rejection under the default budget —
one attempt, no backoff, the login error surfaced. -/
theorem nontransient_short_circuit_witness :
    connectWithRetry loginFailConn 4 =
      { attempts := [1], backoffs := [],
        result := .error (some { code := some "ELOGIN", originalCode := none,
                                 message := "Login failed for user" }) } ∧
    (connectWithRetry loginFailConn 4).attempts.length = 1 :=
  nontransient_short_circuit loginFailConn 4 1
    { code := some "ELOGIN", originalCode := none, message := "Login failed for user" }
    (by decide) (by decide) (fun a h1 h2 => by omega) rfl (by decide)

/-- Claim C5: in a run whose attempts all fail transiently, the manager waits
`min(attempt * 5000, 15000)` after each failed attempt (so exactly that long
before every retry), and every attempt `a` runs against a configuration
rebuilt from scratch by `buildConfig` with the credentials re-resolved at that
attempt — in the explicit-token mode the config of attempt `a` carries
precisely the token the provider serves at attempt `a`. -/
theorem backoff_and_fresh_config (sc : StaticConfig) (env : Env)
    (tokenAt : Nat → Option String) (net : Nat → SqlConfig → Except SqlError Pool)
    (N : Nat) (hN : 1 ≤ N)
    (htr : ∀ a, 1 ≤ a → a ≤ N →
      errTransient (attemptOnce sc env tokenAt net a) = true) :
    (connectWithRetry (attemptOnce sc env tokenAt net) N).attempts = List.range' 1 N ∧
    (connectWithRetry (attemptOnce sc env tokenAt net) N).backoffs =
      (List.range' 1 N).map (fun a => min (5000 * a) 15000) ∧
    (∀ a t, env.isAppService = false → env.forceAccessToken = true →
      tokenAt a = some t → t.isEmpty = false →
      buildConfig sc env (tokenAt a) =
        .ok { server := sc.server, database := sc.database, port := sc.port,
              encrypt := true, trustServerCertificate := false,
              connectTimeout := 30000, requestTimeout := 30000,
              poolMax := 10, poolMin := 0,
              idleTimeoutMillis := 30000, acquireTimeoutMillis := 30000,
              authentication := .accessToken t }) := by
  have htr' : ∀ i, i < N →
      errTransient (attemptOnce sc env tokenAt net (0 + 1 + i)) = true := by
    intro i hi
    have := htr (i + 1) (by omega) (by omega)
    simpa [Nat.add_comm] using this
  have h := connectRetryGo_all_transient (attemptOnce sc env tokenAt net) N 0 none hN htr'
  refine ⟨?_, ?_, ?_⟩
  · unfold connectWithRetry
    rw [h]
  · unfold connectWithRetry
    rw [h]
    rfl
  · intro a t h1 h2 h3 h4
    unfold buildConfig resolveAuthentication getSqlAccessToken
    rw [h1, h2, h3]
    simp [h4, Except.map]

/-- Witness for C5: three timing-out attempts in the forced-token local
environment; the backoff schedule is 5000, 10000, 15000 ms and the rebuilt
config of attempt 2 carries the token served at attempt 2. -/
theorem backoff_and_fresh_config_witness :
    (connectWithRetry (attemptOnce sampleStatic localForceEnv constTok hangUpNet) 3).backoffs =
      [5000, 10000, 15000] ∧
    buildConfig sampleStatic localForceEnv (constTok 2) =
      .ok { server := sampleStatic.server, database := sampleStatic.database,
            port := sampleStatic.port,
            encrypt := true, trustServerCertificate := false,
            connectTimeout := 30000, requestTimeout := 30000,
            poolMax := 10, poolMin := 0,
            idleTimeoutMillis := 30000, acquireTimeoutMillis := 30000,
            authentication := .accessToken "tok" } := by
  have h := backoff_and_fresh_config sampleStatic localForceEnv constTok hangUpNet 3
    (by decide) (fun a _ _ => rfl)
  exact ⟨by rw [h.2.1]; rfl, h.2.2 2 "tok" rfl rfl rfl rfl⟩

lemma insertEmailPass_conflict_case (t : VolunteerTable) (email : String)
    (hp : HashedPassword) (h : t.rows.any (fun r => r.email == email) = true) :
    insertEmailPass t email hp = (t, none) := by
  unfold insertEmailPass
  simp [h]

lemma countP_email_append (rows : List VolunteerRow) (extra : List VolunteerRow)
    (email : String) :
    (rows ++ extra).countP (fun r => r.email == email) =
      rows.countP (fun r => r.email == email) +
        extra.countP (fun r => r.email == email) :=
  List.countP_append _ _ _

/-- Claim C7: on a table holding no row with the given email, the conditional
insert returns the inserted row (with its identifier) the first time and
`none` — a plain value, not a thrown error — the second time; the second call
leaves the table untouched, and exactly one row with that email exists
afterward. -/
theorem conditional_insert_conflict (db : VolunteerTable) (email : String)
    (hp1 hp2 : HashedPassword)
    (hfresh : db.rows.countP (fun r => r.email == email) = 0) :
    (insertEmailPass db email hp1).2 = some { id := db.nextId, email := email } ∧
    (insertEmailPass (insertEmailPass db email hp1).1 email hp2).2 = none ∧
    (insertEmailPass (insertEmailPass db email hp1).1 email hp2).1 =
      (insertEmailPass db email hp1).1 ∧
    (insertEmailPass db email hp1).1.rows.countP (fun r => r.email == email) = 1 := by
  have hmem : ∀ r ∈ db.rows, ¬((fun r => r.email == email) r = true) :=
    List.countP_eq_zero.mp hfresh
  have hany : db.rows.any (fun r => r.email == email) = false := by
    rw [Bool.eq_false_iff]
    intro hcontra
    obtain ⟨r, hr, hpr⟩ := List.any_eq_true.mp hcontra
    exact hmem r hr hpr
  have hfirst : insertEmailPass db email hp1 =
      ({ rows := db.rows ++
          [{ id := db.nextId, email := email,
             passwordHash := hp1.hash, passwordSalt := hp1.salt,
             passwordAlgo := hp1.algorithm, passwordIter := hp1.iterations,
             firstName := none, lastName := none, phone := none, suffix := none,
             smsCapable := none }], nextId := db.nextId + 1 },
       some { id := db.nextId, email := email }) := by
    unfold insertEmailPass
    rw [hany]
    rfl
  have hcount1 : (insertEmailPass db email hp1).1.rows.countP
      (fun r => r.email == email) = 1 := by
    rw [hfirst]
    rw [countP_email_append]
    rw [hfresh]
    simp [List.countP_cons]
  have hany2 : (insertEmailPass db email hp1).1.rows.any
      (fun r => r.email == email) = true := by
    rw [hfirst]
    refine List.any_eq_true.mpr ?_
    refine ⟨{ id := db.nextId, email := email,
              passwordHash := hp1.hash, passwordSalt := hp1.salt,
              passwordAlgo := hp1.algorithm, passwordIter := hp1.iterations,
              firstName := none, lastName := none, phone := none, suffix := none,
              smsCapable := none }, ?_, by simp⟩
    exact List.mem_append_right _ (List.mem_singleton.mpr rfl)
  have hsecond : insertEmailPass (insertEmailPass db email hp1).1 email hp2 =
      ((insertEmailPass db email hp1).1, none) :=
    insertEmailPass_conflict_case _ email hp2 hany2
  refine ⟨by rw [hfirst], by rw [hsecond], by rw [hsecond], hcount1⟩

/-- Witness for C7: two inserts of the same email into the empty table. -/
theorem conditional_insert_conflict_witness :
    (([] : List VolunteerRow).countP (fun r => r.email == "a@example.org") = 0) ∧
    ((insertEmailPass { rows := [], nextId := 1 } "a@example.org" sampleHash).2 =
      some { id := 1, email := "a@example.org" } ∧
     (insertEmailPass
        (insertEmailPass { rows := [], nextId := 1 } "a@example.org" sampleHash).1
        "a@example.org" sampleHash).2 = none ∧
     (insertEmailPass
        (insertEmailPass { rows := [], nextId := 1 } "a@example.org" sampleHash).1
        "a@example.org" sampleHash).1 =
       (insertEmailPass { rows := [], nextId := 1 } "a@example.org" sampleHash).1 ∧
     (insertEmailPass { rows := [], nextId := 1 } "a@example.org" sampleHash).1.rows.countP
        (fun r => r.email == "a@example.org") = 1) :=
  ⟨rfl,
   conditional_insert_conflict { rows := [], nextId := 1 } "a@example.org"
     sampleHash sampleHash rfl⟩

end DbSync
